import Mathlib

/-!
Verification development for the interactive 3D spine model (`SpineModel` class)
of the petros-bio repository.  The JavaScript source is shallowly embedded:

* pure numeric computations (`getCurveOffset`, the layout arithmetic of
  `createDetailedSpine`, the rotation math of the pointer handlers) become Lean
  functions over `ℝ` or `ℚ` (JavaScript numbers are modelled exactly; the
  claims under study only involve values on which float and exact arithmetic
  agree at the points of interest);
* the stateful interaction handlers (`checkHover`/`highlightRegion`/
  `unhighlightRegion`, `onPointerDown`/`onPointerMove`/`onPointerUp`,
  `onTouchStart`/`onTouchMove`, the `setTimeout`-based auto-rotate re-enable)
  become explicit state-passing step functions driven by event lists;
* the three.js scene graph is embedded as the data the embedded operations can
  actually observe and mutate: a list of mesh records (each carrying its own
  `userData`, in document order of `Object3D.traverse`) together with a shared
  material store addressed by index (materials are shared between meshes of one
  generated part, exactly as in the source, so aliasing is representable).
-/

/-- The four anatomical region keys of `this.regions` (`userData.region` values). -/
inductive RegionKey
  | cervical
  | thoracic
  | lumbar
  | sacral
deriving DecidableEq, Repr

/-- The JavaScript string used for a region key. -/
def regionKeyStr : RegionKey → String
  | .cervical => "cervical"
  | .thoracic => "thoracic"
  | .lumbar => "lumbar"
  | .sacral => "sacral"

/-- Static per-region display metadata, from the `this.regions` catalog in the
`SpineModel` constructor. -/
structure RegionInfo where
  name : String
  vertebrae : String
  count : String
  description : String
  function : String
  nerves : String
  conditions : String
  color : ℕ

/-- The region catalog `this.regions`, transcribed from the constructor. -/
def regions : RegionKey → RegionInfo
  | .cervical =>
    { name := "Cervical Spine"
      vertebrae := "C1 (Atlas) – C7 (Vertebra Prominens)"
      count := "7 vertebrae"
      description := "The most mobile spinal region, supporting the head and enabling a wide range of neck movements including rotation, flexion, and extension."
      function := "Head support, neck mobility, houses vertebral arteries"
      nerves := "C1-C8 nerves control head, neck, shoulders, arms, and diaphragm"
      conditions := "Whiplash, cervical radiculopathy, neck strain, herniated disc"
      color := 0x8FA07A }
  | .thoracic =>
    { name := "Thoracic Spine"
      vertebrae := "T1 – T12"
      count := "12 vertebrae"
      description := "The longest spinal region, providing structural support for the ribcage and protecting vital organs including the heart and lungs."
      function := "Ribcage attachment, organ protection, posture stability"
      nerves := "T1-T12 nerves control chest muscles, abdominal muscles, and trunk"
      conditions := "Kyphosis, Scheuermann\x27s disease, thoracic outlet syndrome"
      color := 0x7A8B69 }
  | .lumbar =>
    { name := "Lumbar Spine"
      vertebrae := "L1 – L5"
      count := "5 vertebrae"
      description := "The weight-bearing powerhouse of the spine, featuring the largest vertebrae to support the upper body and enable bending and twisting movements."
      function := "Weight bearing, flexibility, power transfer to lower body"
      nerves := "L1-L5 nerves control hips, legs, feet, and lower body function"
      conditions := "Lower back pain, sciatica, lumbar stenosis, spondylolisthesis"
      color := 0x6B7C5A }
  | .sacral =>
    { name := "Sacrum & Coccyx"
      vertebrae := "S1 – S5 (fused) + Co1-Co4"
      count := "5 fused + 4 coccygeal"
      description := "The foundation of the spine, connecting the vertebral column to the pelvis. The sacrum transmits body weight to the hip bones while the coccyx serves as an attachment point for ligaments and muscles."
      function := "Pelvic stability, weight distribution, muscle attachment"
      nerves := "Sacral plexus controls bowel, bladder, and sexual function"
      conditions := "Sacroiliac dysfunction, coccydynia, sacral fractures"
      color := 0x5C6D4B }

/-- Highlight color of a region (`this.regions[regionKey].color`). -/
def regionColor (r : RegionKey) : ℕ := (regions r).color

/-! ### DOM lookup and construction (`constructor`, `init`)

A DOM element is modelled as an opaque handle; the document is an association
list from element ids to handles, and `document.getElementById` is lookup. -/

/-- An opaque DOM element handle. -/
structure DomElement where
  handle : ℕ
deriving DecidableEq

/-- A document: association of element ids to elements. -/
abbrev Dom := List (String × DomElement)

/-- `document.getElementById`: first binding of the id, if any. -/
def getElementById : Dom → String → Option DomElement
  | [], _ => none
  | (i, c) :: rest, elemId => if i = elemId then some c else getElementById rest elemId

/-- Observable side effects of `SpineModel` construction (`init` call chain:
`setupScene`, `setupLights`, `createDetailedSpine`, `setupInteraction`,
`animate`, `setupResize`). -/
inductive Effect
  | createScene
  | createCamera
  | createRenderer
  | appendCanvas
  | addLights
  | buildSpine
  | addListener (eventName : String)
  | setCursor (cursor : String)
  | startAnimationLoop
  | observeResize
deriving DecidableEq

/-- The `SpineModel` constructor: looks up the container; if absent it returns
before doing anything else (`if (!this.container) return;`), producing no
effects; otherwise `init()` runs scene setup, lights, spine assembly,
interaction listeners, the animation loop and the resize observer.  The
embedding is a total function: no exception is raised on a missing container. -/
def constructSpineModel (dom : Dom) (containerId : String) :
    Option DomElement × List Effect :=
  match getElementById dom containerId with
  | none => (none, [])
  | some c =>
    (some c,
      [Effect.createScene, Effect.createCamera, Effect.createRenderer,
       Effect.appendCanvas, Effect.addLights, Effect.buildSpine,
       Effect.addListener "mousedown", Effect.addListener "mousemove",
       Effect.addListener "mouseup", Effect.addListener "mouseleave",
       Effect.addListener "touchstart", Effect.addListener "touchmove",
       Effect.addListener "touchend", Effect.addListener "click",
       Effect.setCursor "grab", Effect.startAnimationLoop,
       Effect.observeResize])

/-! ### Click selection (`onClick`)

`onClick` ray-casts against the four hit-test volumes (`this.regionMeshes`);
the ray-cast outcome is the input of the embedded function: `some r` when the
nearest intersected indicator carries region key `r`, `none` on a miss.  On a
hit it dispatches one `spineRegionClick` `CustomEvent` on the container whose
`detail` is `{ key: region, ...this.regions[region] }`. -/

/-- The `detail` payload of the dispatched `spineRegionClick` event. -/
structure ClickDetail where
  key : String
  name : String
  vertebrae : String
  count : String
  description : String
  function : String
  nerves : String
  conditions : String
  color : ℕ

/-- Builds `{ key: region, ...this.regions[region] }`. -/
def detailOf (r : RegionKey) : ClickDetail :=
  { key := regionKeyStr r
    name := (regions r).name
    vertebrae := (regions r).vertebrae
    count := (regions r).count
    description := (regions r).description
    function := (regions r).function
    nerves := (regions r).nerves
    conditions := (regions r).conditions
    color := (regions r).color }

/-- Events dispatched by one click on the canvas of a constructed model:
the target element, the event name, and the detail payload.  When the model was
not constructed (missing container) no listener exists and nothing is
dispatched; when the ray-cast misses every hit-test volume nothing is
dispatched; on a hit exactly one event is dispatched on the container. -/
def modelClick (dom : Dom) (containerId : String) (hit : Option RegionKey) :
    List (DomElement × String × ClickDetail) :=
  match getElementById dom containerId with
  | none => []
  | some c =>
    match hit with
    | none => []
    | some r => [(c, "spineRegionClick", detailOf r)]

/-! ### Auto-rotate timer machine (`onPointerDown`, `onPointerUp`, `setTimeout`)

`onPointerDown` (and single-touch `onTouchStart`) sets `isDragging = true` and
`autoRotate = false`.  `onPointerUp` (fired by `mouseup`, `mouseleave` and
`touchend`) sets `isDragging = false` and schedules, 3000 ms later, the
callback `if (!this.isDragging) this.autoRotate = true`.  Timers are never
cancelled; the only guard is the drag check at expiry.  Timestamps are
milliseconds (`ℕ`); pending timers are kept as their absolute fire times and
every timer due at or before the current instant fires before the next
external event is processed. -/

/-- A pointer event relevant to the auto-rotate state: drag start or drag end. -/
inductive PEv
  | down
  | up
deriving DecidableEq

/-- Auto-rotate-relevant interaction state. -/
structure RotState where
  isDragging : Bool
  autoRotate : Bool
  pending : List ℕ
deriving DecidableEq

/-- Initial state: not dragging, auto-rotating, no timer pending. -/
def rotInit : RotState := ⟨false, true, []⟩

/-- Body of the scheduled callback: `if (!this.isDragging) this.autoRotate = true`. -/
def fireTimer (s : RotState) : RotState :=
  if s.isDragging then s else { s with autoRotate := true }

/-- Fire every pending timer whose fire time is at most `t` (each runs
`fireTimer`), removing them from the pending list. -/
def fireDue (s : RotState) (t : ℕ) : RotState :=
  let due := s.pending.filter fun p => decide (p ≤ t)
  let rest := s.pending.filter fun p => !(decide (p ≤ t))
  due.foldl (fun st _ => fireTimer st) { s with pending := rest }

/-- Process one timed pointer event: first let all timers due by the event time
fire, then apply the handler. -/
def rotStep (s : RotState) (e : ℕ × PEv) : RotState :=
  let s' := fireDue s e.1
  match e.2 with
  | PEv.down => { s' with isDragging := true, autoRotate := false }
  | PEv.up => { s' with isDragging := false, pending := s'.pending ++ [e.1 + 3000] }

/-- State at time `T` after a timed event trace: process the events, then let
every timer due by `T` fire. -/
def runRot (es : List (ℕ × PEv)) (T : ℕ) : RotState :=
  fireDue (es.foldl rotStep rotInit) T

/-! ### Drag rotation machine (`onPointerMove`, `onTouchMove`)

Only the rotation-relevant fields are carried (`checkHover`, tooltip and cursor
updates do not touch them; `autoRotate` lives in the timer machine above).
Coordinates are client-pixel values, modelled in `ℚ`. -/

/-- Drag/rotation interaction state: drag flag, `previousMousePosition`,
`targetRotation`. -/
structure DragState where
  isDragging : Bool
  prevX : ℚ
  prevY : ℚ
  targetX : ℚ
  targetY : ℚ
deriving DecidableEq

/-- Initial state of the drag machine. -/
def dragInit : DragState := ⟨false, 0, 0, 0, 0⟩

namespace SpineModel

/-- `onPointerDown`: start a drag at the event position. -/
def onPointerDown (s : DragState) (x y : ℚ) : DragState :=
  { s with isDragging := true, prevX := x, prevY := y }

/-- `onPointerMove`: when dragging, accumulate yaw by `deltaX * 0.008` and
pitch by `deltaY * 0.004`, then clamp pitch to `[-0.6, 0.6]`
(`Math.max(-0.6, Math.min(0.6, x))`); always record the new position. -/
def onPointerMove (s : DragState) (x y : ℚ) : DragState :=
  if s.isDragging then
    let deltaX := x - s.prevX
    let deltaY := y - s.prevY
    { s with
      targetY := s.targetY + deltaX * 0.008
      targetX := max (-0.6) (min 0.6 (s.targetX + deltaY * 0.004))
      prevX := x
      prevY := y }
  else s

/-- `onPointerUp`: end the drag (also fired by `mouseleave` and `touchend`). -/
def onPointerUp (s : DragState) : DragState :=
  { s with isDragging := false }

/-- `onTouchStart`: starts a drag only for exactly one touch. -/
def onTouchStart (s : DragState) (touches : List (ℚ × ℚ)) : DragState :=
  match touches with
  | [(x, y)] => { s with isDragging := true, prevX := x, prevY := y }
  | _ => s

/-- `onTouchMove`: ignored unless dragging with exactly one touch; otherwise
identical accumulation and clamping to `onPointerMove`. -/
def onTouchMove (s : DragState) (touches : List (ℚ × ℚ)) : DragState :=
  if s.isDragging then
    match touches with
    | [(x, y)] =>
      let deltaX := x - s.prevX
      let deltaY := y - s.prevY
      { s with
        targetY := s.targetY + deltaX * 0.008
        targetX := max (-0.6) (min 0.6 (s.targetX + deltaY * 0.004))
        prevX := x
        prevY := y }
    | _ => s
  else s

end SpineModel

/-- One pointer/touch event for the drag machine. -/
inductive DragEv
  | pdown (x y : ℚ)
  | pmove (x y : ℚ)
  | pup
  | tstart (touches : List (ℚ × ℚ))
  | tmove (touches : List (ℚ × ℚ))
deriving DecidableEq

/-- Dispatch one drag event to its handler. -/
def dragStep (s : DragState) : DragEv → DragState
  | DragEv.pdown x y => SpineModel.onPointerDown s x y
  | DragEv.pmove x y => SpineModel.onPointerMove s x y
  | DragEv.pup => SpineModel.onPointerUp s
  | DragEv.tstart ts => SpineModel.onTouchStart s ts
  | DragEv.tmove ts => SpineModel.onTouchMove s ts

/-- Run the drag machine from the freshly constructed state. -/
def runDrag (es : List DragEv) : DragState :=
  es.foldl dragStep dragInit

/-- A drag totalling 10000 px downward in ten 1000 px moves. -/
def drag10000 : List DragEv :=
  [DragEv.pdown 0 0,
   DragEv.pmove 0 1000, DragEv.pmove 0 2000, DragEv.pmove 0 3000,
   DragEv.pmove 0 4000, DragEv.pmove 0 5000, DragEv.pmove 0 6000,
   DragEv.pmove 0 7000, DragEv.pmove 0 8000, DragEv.pmove 0 9000,
   DragEv.pmove 0 10000]

/-! ### Spine layout geometry (`createDetailedSpine`, `createRegionIndicator`,
`getCurveOffset`)

The assembly walks `currentY` downward from `4.5` with spacing `0.48`,
placing 7 cervical, 12 thoracic and 5 lumbar vertebrae (with an
intervertebral disc between consecutive vertebrae of a region), then the
sacrum and the coccyx, and records the vertical span of each region for its
invisible cylindrical hit-test volume.  All layout constants are exact
decimals, so positions and spans are carried in `ℚ`; only quantities that
involve `Math.sin` (the curvature offset and the cervical bifid-tip mesh
offsets) live in `ℝ`. -/

/-- `const vertebraSpacing = 0.48`. -/
def vertebraSpacing : ℚ := 0.48

/-- `currentY` at the start of the assembly (`let currentY = 4.5`), which is
also `cervicalStart`. -/
def cervicalStartY : ℚ := 4.5

/-- Vertical position of cervical vertebra `i` (0-based): `currentY` after `i`
decrements of the cervical loop. -/
def cervicalY (i : ℕ) : ℚ := cervicalStartY - vertebraSpacing * i

/-- `cervicalEnd = currentY + vertebraSpacing` after the 7-step cervical loop. -/
def cervicalEndY : ℚ := (cervicalStartY - vertebraSpacing * 7) + vertebraSpacing

/-- `thoracicStart`: the post-cervical `currentY` minus the extra `0.1` gap. -/
def thoracicStartY : ℚ := (cervicalStartY - vertebraSpacing * 7) - 0.1

/-- Vertical position of thoracic vertebra `i` (0-based). -/
def thoracicY (i : ℕ) : ℚ := thoracicStartY - vertebraSpacing * i

/-- `thoracicEnd = currentY + vertebraSpacing` after the 12-step thoracic loop. -/
def thoracicEndY : ℚ := (thoracicStartY - vertebraSpacing * 12) + vertebraSpacing

/-- `lumbarStart`: the post-thoracic `currentY` minus the extra `0.1` gap. -/
def lumbarStartY : ℚ := (thoracicStartY - vertebraSpacing * 12) - 0.1

/-- Vertical position of lumbar vertebra `i` (0-based). -/
def lumbarY (i : ℕ) : ℚ := lumbarStartY - vertebraSpacing * i

/-- `lumbarEnd = currentY + vertebraSpacing` after the 5-step lumbar loop. -/
def lumbarEndY : ℚ := (lumbarStartY - vertebraSpacing * 5) + vertebraSpacing

/-- `sacralStart`: the post-lumbar `currentY` minus the extra `0.25` gap; the
sacrum group is placed exactly there. -/
def sacralStartY : ℚ := (lumbarStartY - vertebraSpacing * 5) - 0.25

/-- The coccyx group is placed `1.5` below the sacrum. -/
def coccyxPosY : ℚ := sacralStartY - 1.5

/-- `sacralEnd = currentY - 2.1` (taken from the sacrum position). -/
def sacralEndY : ℚ := sacralStartY - 2.1

/-- Scale of cervical vertebra `i`: `0.75 + i * 0.035`. -/
def cervicalScale (i : ℕ) : ℚ := 0.75 + i * 0.035

/-- Scale of thoracic vertebra `i`: `0.95 + i * 0.02`. -/
def thoracicScale (i : ℕ) : ℚ := 0.95 + i * 0.02

/-- Scale of lumbar vertebra `i`: `1.2 + i * 0.04`. -/
def lumbarScale (i : ℕ) : ℚ := 1.2 + i * 0.04

/-- `getCurveOffset(region, index, total)`: the signed depth offset
`A * sin((index/total) * π)` with region-specific amplitude, `0` for the
sacral fall-through. -/
noncomputable def getCurveOffset (region : RegionKey) (index total : ℕ) : ℝ :=
  let t : ℝ := (index : ℝ) / (total : ℝ)
  match region with
  | RegionKey.cervical => 0.15 * Real.sin (t * Real.pi)
  | RegionKey.thoracic => -0.25 * Real.sin (t * Real.pi)
  | RegionKey.lumbar => 0.35 * Real.sin (t * Real.pi)
  | RegionKey.sacral => 0

/-- Kind of a top-level group added to `spineGroup` by `createDetailedSpine`. -/
inductive SegKind
  | vertebra (idx : ℕ)
  | disc
  | sacrum
  | coccyx
deriving DecidableEq

/-- A top-level segment group: its `userData.region` tag (`none` for discs,
which are created without a tag), its kind, its vertical position and the
scale it was built with (`1` for the unscaled sacrum/coccyx composites). -/
structure Segment where
  region : Option RegionKey
  kind : SegKind
  y : ℚ
  scale : ℚ
deriving DecidableEq

/-- `true` exactly on vertebra segments. -/
def Segment.isVertebra (s : Segment) : Bool :=
  match s.kind with
  | SegKind.vertebra _ => true
  | _ => false

/-- The cervical part of the assembly: vertebra `i` at `cervicalY i`, and after
each vertebra except the last a disc at half a spacing below it. -/
def cervicalSegs : List Segment :=
  (List.range 7).flatMap fun i =>
    [{ region := some RegionKey.cervical, kind := SegKind.vertebra i,
       y := cervicalY i, scale := cervicalScale i }] ++
    (if i < 6 then
      [{ region := none, kind := SegKind.disc,
         y := cervicalY i - vertebraSpacing / 2, scale := cervicalScale i * 0.95 }]
     else [])

/-- The thoracic part of the assembly. -/
def thoracicSegs : List Segment :=
  (List.range 12).flatMap fun i =>
    [{ region := some RegionKey.thoracic, kind := SegKind.vertebra i,
       y := thoracicY i, scale := thoracicScale i }] ++
    (if i < 11 then
      [{ region := none, kind := SegKind.disc,
         y := thoracicY i - vertebraSpacing / 2, scale := thoracicScale i * 0.95 }]
     else [])

/-- The lumbar part of the assembly. -/
def lumbarSegs : List Segment :=
  (List.range 5).flatMap fun i =>
    [{ region := some RegionKey.lumbar, kind := SegKind.vertebra i,
       y := lumbarY i, scale := lumbarScale i }] ++
    (if i < 4 then
      [{ region := none, kind := SegKind.disc,
         y := lumbarY i - vertebraSpacing / 2, scale := lumbarScale i * 0.95 }]
     else [])

/-- All segment groups added to `spineGroup` by `createDetailedSpine`, in
creation order: cervical, thoracic, lumbar, then the sacrum and coccyx
composites (both tagged `sacral`). -/
def spineSegments : List Segment :=
  cervicalSegs ++ thoracicSegs ++ lumbarSegs ++
  [{ region := some RegionKey.sacral, kind := SegKind.sacrum, y := sacralStartY, scale := 1 },
   { region := some RegionKey.sacral, kind := SegKind.coccyx, y := coccyxPosY, scale := 1 }]

/-- Vertical positions of the segment groups tagged with region `r`. -/
def regionSegYs (r : RegionKey) : List ℚ :=
  (spineSegments.filter fun s => decide (s.region = some r)).map Segment.y

/-- The `(yStart, yEnd)` arguments passed to `createRegionIndicator` for each
region. -/
def indicatorArgs : RegionKey → ℚ × ℚ
  | RegionKey.cervical => (cervicalStartY, cervicalEndY)
  | RegionKey.thoracic => (thoracicStartY, thoracicEndY)
  | RegionKey.lumbar => (lumbarStartY, lumbarEndY)
  | RegionKey.sacral => (sacralStartY, sacralEndY)

/-- Bottom of the hit-test cylinder built by `createRegionIndicator`: the
center `(yStart+yEnd)/2` minus half the height `|yEnd - yStart|`. -/
def indicatorLow (r : RegionKey) : ℚ :=
  ((indicatorArgs r).1 + (indicatorArgs r).2) / 2 - |(indicatorArgs r).2 - (indicatorArgs r).1| / 2

/-- Top of the hit-test cylinder built by `createRegionIndicator`. -/
def indicatorHigh (r : RegionKey) : ℚ :=
  ((indicatorArgs r).1 + (indicatorArgs r).2) / 2 + |(indicatorArgs r).2 - (indicatorArgs r).1| / 2

/-- Local vertical offsets (relative to the vertebra group origin) of the
meshes created by `createDetailedVertebra`, in creation order: the vertebral
body, two pedicles, two laminae (at `+0.08*scale`), the spinous process, bifid
tips for cervical vertebrae (at `-sin(0.3) * (0.35*scale) * 0.9`, as
`spineAngle = 0.3` and `spineLength = 0.35*scale` there), two transverse
processes, two superior facets (at `+0.12*scale`), two inferior facets (at
`-0.12*scale`), and two costal facets (at `+0.05*scale`) for thoracic
vertebrae. -/
noncomputable def vertebraLocalYs (scale : ℝ) (isCervical isThoracic : Bool) : List ℝ :=
  [0, 0, 0, 0.08 * scale, 0.08 * scale, 0] ++
  (if isCervical then
    [-(Real.sin 0.3) * (0.35 * scale) * 0.9, -(Real.sin 0.3) * (0.35 * scale) * 0.9]
   else []) ++
  [0, 0, 0.12 * scale, 0.12 * scale, -(0.12 * scale), -(0.12 * scale)] ++
  (if isThoracic then [0.05 * scale, 0.05 * scale] else [])

/-- World-space vertical centers of the meshes of cervical vertebra `i`. -/
noncomputable def cervicalVertebraMeshYs (i : ℕ) : List ℝ :=
  (vertebraLocalYs ((cervicalScale i : ℚ) : ℝ) true false).map (· + ((cervicalY i : ℚ) : ℝ))

/-! ### Hover highlighting (`checkHover`, `highlightRegion`, `unhighlightRegion`)

`highlightRegion` and `unhighlightRegion` run `this.spineGroup.traverse` and
act only on objects with `child.isMesh` true; groups (which satisfy
`isGroup`, not `isMesh`) are visited but never match.  The `userData` they
read (`region`, `isIndicator`, `originalColor`, `originalEmissive`) and the
material fields they read or write (`color`, `emissive`, `emissiveIntensity`;
`opacity` is carried too because claim C10 mentions it) are the whole
observable footprint, so the scene is embedded as the flat list of mesh
records in traverse (document) order plus a store of materials addressed by
index.  Materials are instantiated per generated part and shared between the
meshes of that part exactly as in the source (`createBoneMaterial()` is called
once per vertebra and attached to several meshes).  Fields such as
`roughness`/`metalness` are never read or written by the embedded operations
and are omitted.  In the source, `userData.region` is only ever assigned on
the vertebra/sacrum/coccyx *groups* and on the indicator meshes
(`createRegionIndicator`); the anatomy *meshes* keep the default empty
`userData`, which the embedding reproduces. -/

/-- Observable fields of a three.js material.  `emissive = none` models a
material without an emissive channel (`MeshBasicMaterial`); standard materials
start with emissive `0x000000` and intensity `1`. -/
structure Material where
  color : ℕ
  emissive : Option ℕ
  emissiveIntensity : ℚ
  transparent : Bool
  opacity : ℚ
deriving DecidableEq

/-- `userData` of one scene object, restricted to the keys the interaction
code uses. -/
structure UserData where
  region : Option RegionKey := none
  isIndicator : Bool := false
  originalColor : Option ℕ := none
  originalEmissive : Option ℕ := none
deriving DecidableEq

/-- Which builder created a mesh (provenance label only: no embedded operation
reads it; it identifies e.g. the disc meshes in theorem statements). -/
inductive MeshSrc
  | vertebraMesh
  | discMesh
  | sacrumMesh
  | coccyxMesh
  | indicatorMesh
deriving DecidableEq

/-- One mesh in traverse order: its provenance, its `userData` and the index
of its (possibly shared) material in the store. -/
structure SceneMesh where
  src : MeshSrc
  ud : UserData
  mat : ℕ
deriving DecidableEq

/-- Full interaction-relevant state: `this.hoveredRegion`, the meshes of the
`spineGroup` subtree in traverse order, and the material store. -/
structure HoverState where
  hoveredRegion : Option RegionKey
  meshes : List SceneMesh
  mats : List Material
deriving DecidableEq

/-- Action of `highlightRegion(regionKey)` on one traversed mesh: when the
mesh's own `userData.region` equals the key and it is not an indicator, save
the material's current color (and emissive hex, or `0` when the material has
no emissive channel) into `userData`, then set the material color to the
region color and, if the material has an emissive channel, the emissive to the
region color with intensity `0.2`. -/
def highlightMesh (rk : RegionKey) (m : SceneMesh) (mats : List Material) :
    SceneMesh × List Material :=
  if m.ud.region = some rk ∧ m.ud.isIndicator = false then
    match mats.get? m.mat with
    | some mt =>
      ({ m with ud := { m.ud with
            originalColor := some mt.color,
            originalEmissive := some (match mt.emissive with | some e => e | none => 0) } },
       mats.set m.mat
         { mt with
           color := regionColor rk,
           emissive := match mt.emissive with | some _ => some (regionColor rk) | none => none,
           emissiveIntensity := match mt.emissive with | some _ => (0.2 : ℚ) | none => mt.emissiveIntensity })
    | none => (m, mats)
  else (m, mats)

/-- Action of `unhighlightRegion()` on one traversed mesh: when the mesh has a
saved `originalColor`, restore the material color from it and, if the material
has an emissive channel, restore the emissive hex from
`originalEmissive || 0` and zero the intensity.  `userData.originalColor` is
not cleared. -/
def unhighlightMesh (m : SceneMesh) (mats : List Material) :
    SceneMesh × List Material :=
  match m.ud.originalColor with
  | some c =>
    match mats.get? m.mat with
    | some mt =>
      (m,
       mats.set m.mat
         { mt with
           color := c,
           emissive := match mt.emissive with
             | some _ => some (match m.ud.originalEmissive with | some e => e | none => 0)
             | none => none,
           emissiveIntensity := match mt.emissive with | some _ => (0 : ℚ) | none => mt.emissiveIntensity })
    | none => (m, mats)
  | none => (m, mats)

/-- Thread a per-mesh action over the meshes in traverse order, carrying the
material store. -/
def traverseMeshes (f : SceneMesh → List Material → SceneMesh × List Material) :
    List SceneMesh → List Material → List SceneMesh × List Material
  | [], mats => ([], mats)
  | m :: rest, mats =>
    let r := f m mats
    let r' := traverseMeshes f rest r.2
    (r.1 :: r'.1, r'.2)

/-- `highlightRegion(regionKey)` over the whole scene. -/
def highlightRegion (rk : RegionKey) (s : HoverState) : HoverState :=
  let r := traverseMeshes (highlightMesh rk) s.meshes s.mats
  { s with meshes := r.1, mats := r.2 }

/-- `unhighlightRegion()` over the whole scene. -/
def unhighlightRegion (s : HoverState) : HoverState :=
  let r := traverseMeshes unhighlightMesh s.meshes s.mats
  { s with meshes := r.1, mats := r.2 }

/-- `checkHover` driven by the ray-cast outcome (`some r` when the nearest
intersected hit-test volume carries region `r`, `none` on a miss): on a hit of
a region different from the current one, record it and call
`highlightRegion`; on a miss while a region is hovered, call
`unhighlightRegion` and clear the record.  (Tooltip and cursor updates touch
no state modelled here.) -/
def checkHover (s : HoverState) (hit : Option RegionKey) : HoverState :=
  match hit with
  | some r =>
    if s.hoveredRegion = some r then s
    else highlightRegion r { s with hoveredRegion := some r }
  | none =>
    match s.hoveredRegion with
    | some _ => { unhighlightRegion s with hoveredRegion := none }
    | none => s

/-! #### The assembled scene

Each part contributes its freshly created materials and its meshes (whose
material indices point into the part's slice of the store). -/

/-- `createBoneMaterial()`: warm ivory standard material. -/
def boneMat : Material :=
  { color := 0xD4C8B8, emissive := some 0, emissiveIntensity := 1,
    transparent := false, opacity := 1 }

/-- `createDarkBoneMaterial()`: darker ivory standard material. -/
def darkBoneMat : Material :=
  { color := 0xC4B8A8, emissive := some 0, emissiveIntensity := 1,
    transparent := false, opacity := 1 }

/-- The costal-facet material created inside `createDetailedVertebra` for
thoracic vertebrae. -/
def costalMat : Material :=
  { color := 0xC8C0B4, emissive := some 0, emissiveIntensity := 1,
    transparent := false, opacity := 1 }

/-- The annulus material created inside `createDetailedDisc`. -/
def annulusMat : Material :=
  { color := 0x7A8B69, emissive := some 0, emissiveIntensity := 1,
    transparent := true, opacity := 0.9 }

/-- The nucleus material created inside `createDetailedDisc`. -/
def nucleusMat : Material :=
  { color := 0x9AAB8A, emissive := some 0, emissiveIntensity := 1,
    transparent := true, opacity := 0.75 }

/-- The foramen material created inside `createDetailedSacrum`. -/
def foramenMat : Material :=
  { color := 0x3A3A3A, emissive := some 0, emissiveIntensity := 1,
    transparent := false, opacity := 1 }

/-- The invisible `MeshBasicMaterial` of a hit-test volume: region color, zero
opacity, no emissive channel. -/
def indicatorMat (r : RegionKey) : Material :=
  { color := regionColor r, emissive := none, emissiveIntensity := 1,
    transparent := true, opacity := 0 }

/-- A scene part: given the next free material index, the materials it creates
and the meshes it adds (in traverse order). -/
abbrev ScenePart := ℕ → List Material × List SceneMesh

/-- Meshes and materials of one `createDetailedVertebra` call.  One bone and
one dark-bone material are created per call and shared by its meshes; thoracic
vertebrae additionally create the costal material.  Mesh order: body, two
pedicles, two laminae, spinous process, two bifid tips (cervical only), two
transverse processes, four facets, two costal facets (thoracic only).  All
meshes keep the default empty `userData`; only the *group* receives
`userData.region`, which `highlightRegion` never inspects (it filters on
`isMesh`). -/
def vertebraPart (isCervical isThoracic : Bool) : ScenePart := fun base =>
  ([boneMat, darkBoneMat] ++ (if isThoracic then [costalMat] else []),
   [⟨MeshSrc.vertebraMesh, {}, base⟩, ⟨MeshSrc.vertebraMesh, {}, base⟩,
    ⟨MeshSrc.vertebraMesh, {}, base⟩, ⟨MeshSrc.vertebraMesh, {}, base⟩,
    ⟨MeshSrc.vertebraMesh, {}, base⟩, ⟨MeshSrc.vertebraMesh, {}, base + 1⟩] ++
   (if isCervical then
     [⟨MeshSrc.vertebraMesh, {}, base + 1⟩, ⟨MeshSrc.vertebraMesh, {}, base + 1⟩]
    else []) ++
   [⟨MeshSrc.vertebraMesh, {}, base⟩, ⟨MeshSrc.vertebraMesh, {}, base⟩,
    ⟨MeshSrc.vertebraMesh, {}, base + 1⟩, ⟨MeshSrc.vertebraMesh, {}, base + 1⟩,
    ⟨MeshSrc.vertebraMesh, {}, base + 1⟩, ⟨MeshSrc.vertebraMesh, {}, base + 1⟩] ++
   (if isThoracic then
     [⟨MeshSrc.vertebraMesh, {}, base + 2⟩, ⟨MeshSrc.vertebraMesh, {}, base + 2⟩]
    else []))

/-- Meshes and materials of one `createDetailedDisc` call: annulus and
nucleus, each with a fresh material; the group and meshes carry no region
tag. -/
def discPart : ScenePart := fun base =>
  ([annulusMat, nucleusMat],
   [⟨MeshSrc.discMesh, {}, base⟩, ⟨MeshSrc.discMesh, {}, base + 1⟩])

/-- Meshes and materials of `createDetailedSacrum`: the lathed body, eight
foramina, two wings and four crest bumps; one bone and one foramen material. -/
def sacrumPart : ScenePart := fun base =>
  ([boneMat, foramenMat],
   [⟨MeshSrc.sacrumMesh, {}, base⟩] ++
   List.replicate 8 ⟨MeshSrc.sacrumMesh, {}, base + 1⟩ ++
   List.replicate 2 ⟨MeshSrc.sacrumMesh, {}, base⟩ ++
   List.replicate 4 ⟨MeshSrc.sacrumMesh, {}, base⟩)

/-- Meshes and materials of `createDetailedCoccyx`: four fused segments
sharing one bone material. -/
def coccyxPart : ScenePart := fun base =>
  ([boneMat], List.replicate 4 ⟨MeshSrc.coccyxMesh, {}, base⟩)

/-- Mesh and material of one `createRegionIndicator` call: the hit-test
volume mesh is the only mesh whose own `userData` carries a region key, and it
is flagged `isIndicator`. -/
def indicatorPart (r : RegionKey) : ScenePart := fun base =>
  ([indicatorMat r],
   [⟨MeshSrc.indicatorMesh, { region := some r, isIndicator := true }, base⟩])

/-- Append one part to an accumulated (materials, meshes) pair, giving the
part the next free material index. -/
def appendPart (acc : List Material × List SceneMesh) (p : ScenePart) :
    List Material × List SceneMesh :=
  let r := p acc.1.length
  (acc.1 ++ r.1, acc.2 ++ r.2)

/-- All parts created by `createDetailedSpine` in creation order. -/
def sceneParts : List ScenePart :=
  ((List.range 7).flatMap fun i =>
    [vertebraPart true false] ++ (if i < 6 then [discPart] else [])) ++
  ((List.range 12).flatMap fun i =>
    [vertebraPart false true] ++ (if i < 11 then [discPart] else [])) ++
  ((List.range 5).flatMap fun i =>
    [vertebraPart false false] ++ (if i < 4 then [discPart] else [])) ++
  [sacrumPart, coccyxPart] ++
  [indicatorPart RegionKey.cervical, indicatorPart RegionKey.thoracic,
   indicatorPart RegionKey.lumbar, indicatorPart RegionKey.sacral]

/-- Materials and meshes of the freshly assembled scene. -/
def assembledScene : List Material × List SceneMesh :=
  sceneParts.foldl appendPart ([], [])

/-- The freshly assembled interaction state: nothing hovered. -/
def hoverInit : HoverState :=
  { hoveredRegion := none, meshes := assembledScene.2, mats := assembledScene.1 }

/-- Run a sequence of ray-cast outcomes through `checkHover`, starting at the
freshly assembled state. -/
def runHover (es : List (Option RegionKey)) : HoverState :=
  es.foldl checkHover hoverInit

/-- Region `r`'s anatomy meshes carry the highlighted material state: some
non-indicator mesh tagged with `r` has its material color set to `r`'s
highlight color. -/
def regionHighlighted (r : RegionKey) (s : HoverState) : Prop :=
  ∃ m ∈ s.meshes, m.ud.region = some r ∧ m.ud.isIndicator = false ∧
    (match s.mats.get? m.mat with
     | some mt => mt.color = regionColor r
     | none => False)

/-! ### Remaining predicates used in theorem statements -/

/-- Region-specific curvature amplitude `A` named by the specification
(cervical lordosis `+0.15`, thoracic kyphosis `-0.25`, lumbar lordosis
`+0.35`, sacral `0`). -/
noncomputable def curveAmp : RegionKey → ℝ
  | RegionKey.cervical => 0.15
  | RegionKey.thoracic => -0.25
  | RegionKey.lumbar => 0.35
  | RegionKey.sacral => 0

/-- A mesh of the freshly assembled scene as the interaction code sees it: no
region tag on the mesh itself unless it is an indicator, and no saved
original color. -/
def GoodMesh (m : SceneMesh) : Prop :=
  (m.ud.region = none ∨ m.ud.isIndicator = true) ∧ m.ud.originalColor = none

instance (m : SceneMesh) : Decidable (GoodMesh m) := by
  unfold GoodMesh
  infer_instance

/-- Invariant of the auto-rotate machine relative to a time horizon `T` and
the already-processed prefix `seen`: if auto-rotation is on then no drag is in
progress and either no drag ever started or some drag ended at least 3000 ms
before `T`; and every pending timer was scheduled by a processed drag end. -/
def RotInv (T : ℕ) (seen : List (ℕ × PEv)) (s : RotState) : Prop :=
  (s.autoRotate = true → s.isDragging = false ∧
     ((∀ e ∈ seen, e.2 ≠ PEv.down) ∨ ∃ e ∈ seen, e.2 = PEv.up ∧ e.1 + 3000 ≤ T)) ∧
  (∀ p ∈ s.pending, ∃ e ∈ seen, e.2 = PEv.up ∧ p = e.1 + 3000)

/-! ## Theorems -/

/-! ### C9: absent container -/

/-- Claim C9: if the named container element is absent at construction, the
constructor is a silent no-op: it returns immediately with no scene, renderer,
listener, timer, animation loop or DOM modification, and (the embedding being
a total function) no error. -/
theorem construct_missing_container_noop (dom : Dom) (containerId : String)
    (h : getElementById dom containerId = none) :
    constructSpineModel dom containerId = (none, []) := by
  simp [constructSpineModel, h]

/-- Witness for C9: constructing against an empty document is a no-op. -/
theorem construct_missing_container_noop_witness :
    constructSpineModel [] "spine-model" = (none, []) :=
  construct_missing_container_noop [] "spine-model" rfl

/-! ### C8: lumbar click dispatch -/

/-- Claim C8: on a model constructed against a present container, a click
whose ray-cast hits the lumbar hit-test volume dispatches exactly one
`spineRegionClick` event on the container, whose detail has key `"lumbar"`,
count `"5 vertebrae"` and the remaining lumbar catalog fields; a click whose
ray hits no hit-test volume dispatches nothing. -/
theorem click_lumbar_dispatch (dom : Dom) (containerId : String) (c : DomElement)
    (h : getElementById dom containerId = some c) :
    modelClick dom containerId (some RegionKey.lumbar) =
      [(c, "spineRegionClick", detailOf RegionKey.lumbar)]
    ∧ (detailOf RegionKey.lumbar).key = "lumbar"
    ∧ (detailOf RegionKey.lumbar).count = "5 vertebrae"
    ∧ (detailOf RegionKey.lumbar).name = "Lumbar Spine"
    ∧ (detailOf RegionKey.lumbar).vertebrae = "L1 – L5"
    ∧ (detailOf RegionKey.lumbar).description = "The weight-bearing powerhouse of the spine, featuring the largest vertebrae to support the upper body and enable bending and twisting movements."
    ∧ (detailOf RegionKey.lumbar).function = "Weight bearing, flexibility, power transfer to lower body"
    ∧ (detailOf RegionKey.lumbar).nerves = "L1-L5 nerves control hips, legs, feet, and lower body function"
    ∧ (detailOf RegionKey.lumbar).conditions = "Lower back pain, sciatica, lumbar stenosis, spondylolisthesis"
    ∧ (detailOf RegionKey.lumbar).color = 0x6B7C5A
    ∧ modelClick dom containerId none = [] := by
  refine ⟨?_, rfl, rfl, rfl, rfl, rfl, rfl, rfl, rfl, rfl, ?_⟩ <;>
    simp [modelClick, h]

/-- Witness for C8 at a concrete one-element document. -/
theorem click_lumbar_dispatch_witness :
    modelClick [("spine-model", ⟨0⟩)] "spine-model" (some RegionKey.lumbar) =
      [(⟨0⟩, "spineRegionClick", detailOf RegionKey.lumbar)] :=
  (click_lumbar_dispatch [("spine-model", ⟨0⟩)] "spine-model" ⟨0⟩ rfl).1

/-! ### C5: segment counts and order -/

/-- Claim C5: the assembler creates exactly 7 cervical, 12 thoracic and 5
lumbar vertebra segments (24 in total), plus exactly one sacrum and one coccyx
composite, and the region-tagged segments appear in the fixed order cervical,
thoracic, lumbar, sacral. -/
theorem spine_segment_counts :
    (spineSegments.filter fun s => s.isVertebra && decide (s.region = some RegionKey.cervical)).length = 7
  ∧ (spineSegments.filter fun s => s.isVertebra && decide (s.region = some RegionKey.thoracic)).length = 12
  ∧ (spineSegments.filter fun s => s.isVertebra && decide (s.region = some RegionKey.lumbar)).length = 5
  ∧ (spineSegments.filter fun s => s.isVertebra).length = 24
  ∧ (spineSegments.filter fun s => decide (s.kind = SegKind.sacrum)).length = 1
  ∧ (spineSegments.filter fun s => decide (s.kind = SegKind.coccyx)).length = 1
  ∧ (spineSegments.filter fun s => s.region.isSome).map Segment.region
      = List.replicate 7 (some RegionKey.cervical) ++ List.replicate 12 (some RegionKey.thoracic)
        ++ List.replicate 5 (some RegionKey.lumbar) ++ List.replicate 2 (some RegionKey.sacral) := by
  refine ⟨by decide, by decide, by decide, by decide, by decide, by decide, by decide⟩

/-! ### C6: pitch clamping -/

/-- One drag event never takes the pitch target out of `[-0.6, 0.6]`. -/
theorem dragStep_targetX_bounds (s : DragState) (e : DragEv)
    (h : -0.6 ≤ s.targetX ∧ s.targetX ≤ 0.6) :
    -0.6 ≤ (dragStep s e).targetX ∧ (dragStep s e).targetX ≤ 0.6 := by
  cases e with
  | pdown x y => simpa [dragStep, SpineModel.onPointerDown] using h
  | pup => simpa [dragStep, SpineModel.onPointerUp] using h
  | pmove x y =>
    by_cases hd : s.isDragging
    · simp only [dragStep, SpineModel.onPointerMove, hd, if_true]
      exact ⟨le_max_left _ _, max_le (by norm_num) (min_le_left _ _)⟩
    · simpa [dragStep, SpineModel.onPointerMove, hd] using h
  | tstart ts =>
    rcases ts with _ | ⟨⟨x, y⟩, _ | ⟨b, rest⟩⟩ <;>
      simpa [dragStep, SpineModel.onTouchStart] using h
  | tmove ts =>
    by_cases hd : s.isDragging
    · rcases ts with _ | ⟨⟨x, y⟩, _ | ⟨b, rest⟩⟩
      · simpa [dragStep, SpineModel.onTouchMove, hd] using h
      · simp only [dragStep, SpineModel.onTouchMove, hd, if_true]
        exact ⟨le_max_left _ _, max_le (by norm_num) (min_le_left _ _)⟩
      · simpa [dragStep, SpineModel.onTouchMove, hd] using h
    · rcases ts with _ | ⟨⟨x, y⟩, _ | ⟨b, rest⟩⟩ <;>
        simpa [dragStep, SpineModel.onTouchMove, hd] using h

/-- The pitch bound is preserved along any event list. -/
theorem foldl_dragStep_bounds (es : List DragEv) (s : DragState)
    (h : -0.6 ≤ s.targetX ∧ s.targetX ≤ 0.6) :
    -0.6 ≤ (es.foldl dragStep s).targetX ∧ (es.foldl dragStep s).targetX ≤ 0.6 := by
  induction es generalizing s with
  | nil => simpa using h
  | cons e rest ih => exact ih (dragStep s e) (dragStep_targetX_bounds s e h)

/-- Claim C6: over every pointer/touch event sequence the pitch target stays
in `[-0.6, 0.6]`; each move while dragging adds `deltaX * 0.008` to yaw and
`deltaY * 0.004` to pitch before clamping (mouse and touch alike); and a drag
of 10000 px in one vertical direction leaves the pitch target exactly at the
clamp bound `0.6`. -/
theorem pitch_always_clamped (es : List DragEv) (s : DragState) (x y : ℚ)
    (hs : s.isDragging = true) :
    (-0.6 ≤ (runDrag es).targetX ∧ (runDrag es).targetX ≤ 0.6)
    ∧ (SpineModel.onPointerMove s x y).targetY = s.targetY + (x - s.prevX) * 0.008
    ∧ (SpineModel.onPointerMove s x y).targetX
        = max (-0.6) (min 0.6 (s.targetX + (y - s.prevY) * 0.004))
    ∧ (SpineModel.onTouchMove s [(x, y)]).targetY = s.targetY + (x - s.prevX) * 0.008
    ∧ (SpineModel.onTouchMove s [(x, y)]).targetX
        = max (-0.6) (min 0.6 (s.targetX + (y - s.prevY) * 0.004))
    ∧ (runDrag drag10000).targetX = 0.6 := by
  refine ⟨foldl_dragStep_bounds es dragInit (by norm_num [dragInit]), ?_, ?_, ?_, ?_, ?_⟩
  · simp [SpineModel.onPointerMove, hs]
  · simp [SpineModel.onPointerMove, hs]
  · simp [SpineModel.onTouchMove, hs]
  · simp [SpineModel.onTouchMove, hs]
  · simp only [runDrag, drag10000, List.foldl, dragStep, SpineModel.onPointerDown,
      SpineModel.onPointerMove, dragInit]
    norm_num [min_def, max_def]

/-- Witness for C6 at a concrete dragging state. -/
theorem pitch_always_clamped_witness :
    (runDrag drag10000).targetX = 0.6 :=
  (pitch_always_clamped [] ⟨true, 0, 0, 0, 0⟩ 0 0 rfl).2.2.2.2.2

/-! ### C4: curvature offsets

Helper facts about `sin` on fractional multiples of `π`: nonnegativity and
positivity on `[0, π]`, monotonicity up to the midpoint, the reflection
symmetry `sin((n-a)/n * pi) = sin(a/n * pi)`, and their combination bounding
every sample by the midpoint sample. -/

theorem sin_frac_nonneg (i total : ℕ) (h : i ≤ total) :
    0 ≤ Real.sin ((i : ℝ) / (total : ℝ) * Real.pi) := by
  rcases Nat.eq_zero_or_pos total with h0 | h0
  · subst h0
    simp [show i = 0 by omega]
  · have hnR : (0 : ℝ) < total := by exact_mod_cast h0
    apply Real.sin_nonneg_of_nonneg_of_le_pi
    · positivity
    · have h1 : (i : ℝ) / total ≤ 1 := by
        rw [div_le_one hnR]
        exact_mod_cast h
      calc (i : ℝ) / total * Real.pi ≤ 1 * Real.pi :=
            mul_le_mul_of_nonneg_right h1 Real.pi_pos.le
        _ = Real.pi := one_mul _

theorem sin_frac_pos (a n : ℕ) (ha : 0 < a) (han : a < n) :
    0 < Real.sin ((a : ℝ) / (n : ℝ) * Real.pi) := by
  have haR : (0 : ℝ) < a := by exact_mod_cast ha
  have hnR : (0 : ℝ) < n := by exact_mod_cast (lt_trans ha han)
  apply Real.sin_pos_of_pos_of_lt_pi
  · positivity
  · have h1 : (a : ℝ) / n < 1 := by
      rw [div_lt_one hnR]
      exact_mod_cast han
    nlinarith [Real.pi_pos]

theorem sin_frac_mono (a b n : ℕ) (hab : a ≤ b) (hbn : 2 * b ≤ n) :
    Real.sin ((a : ℝ) / (n : ℝ) * Real.pi) ≤ Real.sin ((b : ℝ) / (n : ℝ) * Real.pi) := by
  rcases Nat.eq_zero_or_pos n with h0 | h0
  · subst h0
    simp [show a = 0 by omega, show b = 0 by omega]
  · have hnR : (0 : ℝ) < n := by exact_mod_cast h0
    have hπ := Real.pi_pos
    have hb2 : (b : ℝ) / n ≤ 1 / 2 := by
      rw [div_le_div_iff₀ hnR (by norm_num)]
      have h2 : ((2 * b : ℕ) : ℝ) ≤ (n : ℝ) := by exact_mod_cast hbn
      push_cast at h2
      linarith
    have hbhigh : (b : ℝ) / n * Real.pi ≤ Real.pi / 2 := by
      calc (b : ℝ) / n * Real.pi ≤ 1 / 2 * Real.pi :=
            mul_le_mul_of_nonneg_right hb2 hπ.le
        _ = Real.pi / 2 := by ring
    have habR : (a : ℝ) / n * Real.pi ≤ (b : ℝ) / n * Real.pi := by
      have hab2 : (a : ℝ) ≤ (b : ℝ) := by exact_mod_cast hab
      gcongr
    have hamem : (a : ℝ) / n * Real.pi ∈ Set.Icc (-(Real.pi / 2)) (Real.pi / 2) := by
      constructor
      · have h2 : (0 : ℝ) ≤ (a : ℝ) / n * Real.pi := by positivity
        linarith
      · linarith
    have hbmem : (b : ℝ) / n * Real.pi ∈ Set.Icc (-(Real.pi / 2)) (Real.pi / 2) := by
      constructor
      · have h2 : (0 : ℝ) ≤ (b : ℝ) / n * Real.pi := by positivity
        linarith
      · exact hbhigh
    exact Real.strictMonoOn_sin.monotoneOn hamem hbmem habR

theorem sin_frac_reflect (a n : ℕ) (h : a ≤ n) :
    Real.sin ((a : ℝ) / (n : ℝ) * Real.pi)
      = Real.sin (((n - a : ℕ) : ℝ) / (n : ℝ) * Real.pi) := by
  rcases Nat.eq_zero_or_pos n with h0 | h0
  · subst h0
    simp [show a = 0 by omega]
  · have hnR : (0 : ℝ) < n := by exact_mod_cast h0
    have hcast : ((n - a : ℕ) : ℝ) = (n : ℝ) - (a : ℝ) := by
      push_cast [h]
      ring
    rw [hcast]
    have harg : ((n : ℝ) - (a : ℝ)) / n * Real.pi = Real.pi - (a : ℝ) / n * Real.pi := by
      field_simp
      ring
    rw [harg, Real.sin_pi_sub]

theorem sin_frac_le_mid (a m n : ℕ) (hmn : 2 * m ≤ n) (hm2 : n ≤ 2 * m + 1) (ha : a ≤ n) :
    Real.sin ((a : ℝ) / (n : ℝ) * Real.pi) ≤ Real.sin ((m : ℝ) / (n : ℝ) * Real.pi) := by
  rcases le_or_lt a m with h | h
  · exact sin_frac_mono a m n h hmn
  · rw [sin_frac_reflect a n ha]
    exact sin_frac_mono (n - a) m n (by omega) hmn

/-- Counterexample for C4: the claim asserts the curve offset is `0` at the
last segment of each region, but the last cervical segment (index 6 of 7) has
offset `0.15 * sin(6π/7) > 0`. -/
theorem curve_offset_last_segment_cex :
    getCurveOffset RegionKey.cervical 6 7 ≠ 0 := by
  have h := sin_frac_pos 6 7 (by norm_num) (by norm_num)
  have h2 : (0 : ℝ) < getCurveOffset RegionKey.cervical 6 7 := by
    show (0 : ℝ) < 0.15 * Real.sin (((6:ℕ) : ℝ) / ((7:ℕ) : ℝ) * Real.pi)
    nlinarith
  exact ne_of_gt h2

/-- Claim C4 (amended): for every region the curve offset equals
`A * sin(π * i/total)` with `A = +0.15` (cervical), `-0.25` (thoracic),
`+0.35` (lumbar), `0` (sacral); cervical and lumbar offsets are nonnegative
and thoracic offsets nonpositive for `i ≤ total`; the offset is `0` at the
first segment of each region but, unlike the original claim, **nonzero at the
last segment** of the cervical, thoracic and lumbar regions; and it is maximal
in magnitude at the region's midpoint segment (index 3 of 7, 6 of 12, 2 of 5). -/
theorem curve_offset_amended :
    (∀ r : RegionKey, ∀ i total : ℕ,
       getCurveOffset r i total = curveAmp r * Real.sin (Real.pi * i / total))
  ∧ (∀ i total : ℕ, i ≤ total →
       0 ≤ getCurveOffset RegionKey.cervical i total
       ∧ 0 ≤ getCurveOffset RegionKey.lumbar i total
       ∧ getCurveOffset RegionKey.thoracic i total ≤ 0)
  ∧ (∀ r : RegionKey, ∀ total : ℕ, getCurveOffset r 0 total = 0)
  ∧ (∀ i total : ℕ, getCurveOffset RegionKey.sacral i total = 0)
  ∧ (0 < getCurveOffset RegionKey.cervical 6 7
     ∧ getCurveOffset RegionKey.thoracic 11 12 < 0
     ∧ 0 < getCurveOffset RegionKey.lumbar 4 5)
  ∧ (∀ i : ℕ, i < 7 →
       |getCurveOffset RegionKey.cervical i 7| ≤ |getCurveOffset RegionKey.cervical 3 7|)
  ∧ (∀ i : ℕ, i < 12 →
       |getCurveOffset RegionKey.thoracic i 12| ≤ |getCurveOffset RegionKey.thoracic 6 12|)
  ∧ (∀ i : ℕ, i < 5 →
       |getCurveOffset RegionKey.lumbar i 5| ≤ |getCurveOffset RegionKey.lumbar 2 5|) := by
  have habs_c : ∀ j : ℕ, j ≤ 7 → |getCurveOffset RegionKey.cervical j 7|
      = 0.15 * Real.sin ((j : ℝ) / ((7:ℕ) : ℝ) * Real.pi) := by
    intro j hj
    show |0.15 * Real.sin ((j : ℝ) / ((7:ℕ) : ℝ) * Real.pi)| = _
    rw [abs_mul, abs_of_nonneg (sin_frac_nonneg j 7 hj)]
    norm_num
  have habs_t : ∀ j : ℕ, j ≤ 12 → |getCurveOffset RegionKey.thoracic j 12|
      = 0.25 * Real.sin ((j : ℝ) / ((12:ℕ) : ℝ) * Real.pi) := by
    intro j hj
    show |(-0.25) * Real.sin ((j : ℝ) / ((12:ℕ) : ℝ) * Real.pi)| = _
    rw [abs_mul, abs_of_nonneg (sin_frac_nonneg j 12 hj)]
    norm_num
  have habs_l : ∀ j : ℕ, j ≤ 5 → |getCurveOffset RegionKey.lumbar j 5|
      = 0.35 * Real.sin ((j : ℝ) / ((5:ℕ) : ℝ) * Real.pi) := by
    intro j hj
    show |0.35 * Real.sin ((j : ℝ) / ((5:ℕ) : ℝ) * Real.pi)| = _
    rw [abs_mul, abs_of_nonneg (sin_frac_nonneg j 5 hj)]
    norm_num
  refine ⟨?_, ?_, ?_, ?_, ⟨?_, ?_, ?_⟩, ?_, ?_, ?_⟩
  · intro r i total
    have harg : (i : ℝ) / (total : ℝ) * Real.pi = Real.pi * i / total := by ring
    cases r <;> simp only [getCurveOffset, curveAmp] <;> try rw [harg]
    simp
  · intro i total h
    have hs := sin_frac_nonneg i total h
    refine ⟨?_, ?_, ?_⟩
    · show (0:ℝ) ≤ 0.15 * Real.sin ((i : ℝ) / (total : ℝ) * Real.pi)
      nlinarith
    · show (0:ℝ) ≤ 0.35 * Real.sin ((i : ℝ) / (total : ℝ) * Real.pi)
      nlinarith
    · show (-0.25) * Real.sin ((i : ℝ) / (total : ℝ) * Real.pi) ≤ 0
      nlinarith
  · intro r total
    cases r <;> simp [getCurveOffset]
  · intro i total
    rfl
  · have h := sin_frac_pos 6 7 (by norm_num) (by norm_num)
    show (0:ℝ) < 0.15 * Real.sin (((6:ℕ) : ℝ) / ((7:ℕ) : ℝ) * Real.pi)
    nlinarith
  · have h := sin_frac_pos 11 12 (by norm_num) (by norm_num)
    show (-0.25) * Real.sin (((11:ℕ) : ℝ) / ((12:ℕ) : ℝ) * Real.pi) < 0
    nlinarith
  · have h := sin_frac_pos 4 5 (by norm_num) (by norm_num)
    show (0:ℝ) < 0.35 * Real.sin (((4:ℕ) : ℝ) / ((5:ℕ) : ℝ) * Real.pi)
    nlinarith
  · intro i hi
    rw [habs_c i (by omega), habs_c 3 (by norm_num)]
    have := sin_frac_le_mid i 3 7 (by norm_num) (by norm_num) (by omega)
    nlinarith
  · intro i hi
    rw [habs_t i (by omega), habs_t 6 (by norm_num)]
    have := sin_frac_le_mid i 6 12 (by norm_num) (by norm_num) (by omega)
    nlinarith
  · intro i hi
    rw [habs_l i (by omega), habs_l 2 (by norm_num)]
    have := sin_frac_le_mid i 2 5 (by norm_num) (by norm_num) (by omega)
    nlinarith

/-- Witness for C4 (amended) at concrete indices, discharging the `i ≤ total`
and `i < count` hypotheses. -/
theorem curve_offset_amended_witness :
    0 ≤ getCurveOffset RegionKey.cervical 3 7
    ∧ |getCurveOffset RegionKey.lumbar 4 5| ≤ |getCurveOffset RegionKey.lumbar 2 5| :=
  ⟨(curve_offset_amended.2.1 3 7 (by norm_num)).1,
   curve_offset_amended.2.2.2.2.2.2.2 4 (by norm_num)⟩

/-! ### C7: hit-test spans versus segment positions

Numeric evaluation lemmas for the indicator spans (in the source `yStart` is
always above `yEnd`, so the cylinder spans exactly `[yEnd, yStart]`) and
explicit forms of the per-region segment position lists. -/

theorem indicator_span_eval (a b : ℚ) (h : b ≤ a) :
    (a + b) / 2 - |b - a| / 2 = b ∧ (a + b) / 2 + |b - a| / 2 = a := by
  rw [abs_of_nonpos (by linarith)]
  constructor <;> ring

theorem indicatorLow_cervical : indicatorLow RegionKey.cervical = cervicalEndY :=
  (indicator_span_eval cervicalStartY cervicalEndY
    (by norm_num [cervicalStartY, cervicalEndY, vertebraSpacing])).1

theorem indicatorHigh_cervical : indicatorHigh RegionKey.cervical = cervicalStartY :=
  (indicator_span_eval cervicalStartY cervicalEndY
    (by norm_num [cervicalStartY, cervicalEndY, vertebraSpacing])).2

theorem indicatorLow_thoracic : indicatorLow RegionKey.thoracic = thoracicEndY :=
  (indicator_span_eval thoracicStartY thoracicEndY
    (by norm_num [thoracicStartY, thoracicEndY, cervicalStartY, vertebraSpacing])).1

theorem indicatorHigh_thoracic : indicatorHigh RegionKey.thoracic = thoracicStartY :=
  (indicator_span_eval thoracicStartY thoracicEndY
    (by norm_num [thoracicStartY, thoracicEndY, cervicalStartY, vertebraSpacing])).2

theorem indicatorLow_lumbar : indicatorLow RegionKey.lumbar = lumbarEndY :=
  (indicator_span_eval lumbarStartY lumbarEndY
    (by norm_num [lumbarStartY, lumbarEndY, thoracicStartY, cervicalStartY, vertebraSpacing])).1

theorem indicatorHigh_lumbar : indicatorHigh RegionKey.lumbar = lumbarStartY :=
  (indicator_span_eval lumbarStartY lumbarEndY
    (by norm_num [lumbarStartY, lumbarEndY, thoracicStartY, cervicalStartY, vertebraSpacing])).2

theorem indicatorLow_sacral : indicatorLow RegionKey.sacral = sacralEndY :=
  (indicator_span_eval sacralStartY sacralEndY
    (by norm_num [sacralStartY, sacralEndY, lumbarStartY, thoracicStartY, cervicalStartY,
      vertebraSpacing])).1

theorem indicatorHigh_sacral : indicatorHigh RegionKey.sacral = sacralStartY :=
  (indicator_span_eval sacralStartY sacralEndY
    (by norm_num [sacralStartY, sacralEndY, lumbarStartY, thoracicStartY, cervicalStartY,
      vertebraSpacing])).2

theorem regionSegYs_cervical : regionSegYs RegionKey.cervical
    = [cervicalY 0, cervicalY 1, cervicalY 2, cervicalY 3, cervicalY 4, cervicalY 5,
       cervicalY 6] := rfl

theorem regionSegYs_thoracic : regionSegYs RegionKey.thoracic
    = [thoracicY 0, thoracicY 1, thoracicY 2, thoracicY 3, thoracicY 4, thoracicY 5,
       thoracicY 6, thoracicY 7, thoracicY 8, thoracicY 9, thoracicY 10, thoracicY 11] := rfl

theorem regionSegYs_lumbar : regionSegYs RegionKey.lumbar
    = [lumbarY 0, lumbarY 1, lumbarY 2, lumbarY 3, lumbarY 4] := rfl

theorem regionSegYs_sacral : regionSegYs RegionKey.sacral = [sacralStartY, coccyxPosY] := rfl

/-- Counterexample for C7: (a) the superior-facet mesh of the topmost cervical
vertebra has its center at `4.5 + 0.12*0.75 = 4.59`, strictly above the top of
the cervical hit-test span (`4.5`), so an anatomy mesh center falls outside
its region's indicator span; and (b) the sacral span's lower endpoint
(`-9.57`) coincides with no sacral segment position — every sacral segment
(sacrum at `-7.47`, coccyx at `-8.97`) lies strictly above it, so the sacral
span's endpoints do not coincide with the extremal segment positions. -/
theorem indicator_span_cex :
    ((4.5 : ℝ) + 0.12 * 0.75 ∈ cervicalVertebraMeshYs 0
      ∧ ((indicatorHigh RegionKey.cervical : ℚ) : ℝ) < 4.5 + 0.12 * 0.75)
    ∧ indicatorLow RegionKey.sacral ∉ regionSegYs RegionKey.sacral
    ∧ (∀ y ∈ regionSegYs RegionKey.sacral, indicatorLow RegionKey.sacral < y) := by
  refine ⟨⟨?_, ?_⟩, ?_, ?_⟩
  · have hsc : ((cervicalScale 0 : ℚ) : ℝ) = 0.75 := by
      norm_num [cervicalScale]
    have hy : ((cervicalY 0 : ℚ) : ℝ) = 4.5 := by
      norm_num [cervicalY, cervicalStartY, vertebraSpacing]
    unfold cervicalVertebraMeshYs vertebraLocalYs
    rw [hsc, hy]
    simp only [if_true, List.map_append, List.map_cons, List.map_nil, List.mem_append,
      List.mem_cons, List.mem_singleton]
    norm_num
  · rw [indicatorHigh_cervical]
    norm_num [cervicalStartY]
  · rw [indicatorLow_sacral, regionSegYs_sacral]
    norm_num [sacralEndY, sacralStartY, coccyxPosY, lumbarStartY, thoracicStartY,
      cervicalStartY, vertebraSpacing]
  · intro y hy
    rw [regionSegYs_sacral] at hy
    rw [indicatorLow_sacral]
    simp only [List.mem_cons, List.not_mem_nil, or_false] at hy
    rcases hy with rfl | rfl
    · norm_num [sacralEndY, sacralStartY, lumbarStartY, thoracicStartY, cervicalStartY,
        vertebraSpacing]
    · norm_num [sacralEndY, sacralStartY, coccyxPosY, lumbarStartY, thoracicStartY,
        cervicalStartY, vertebraSpacing]

/-- Claim C7 (amended): each region's hit-test span contains the positions of
all segment groups tagged with that region key, and its top endpoint always
coincides with the region's first (highest) segment position.  For the
cervical, thoracic and lumbar regions the bottom endpoint also coincides with
the last segment position, so those spans exactly bound their segments; for
the sacral region — unlike the original claim — the bottom endpoint lies `0.6`
units below the coccyx, strictly below every sacral segment.  (Individual
anatomy mesh centers can moreover fall slightly outside a span; see the
counterexample.) -/
theorem indicator_span_amended :
    (∀ r : RegionKey, ∀ y ∈ regionSegYs r, indicatorLow r ≤ y ∧ y ≤ indicatorHigh r)
  ∧ (∀ r : RegionKey, indicatorHigh r ∈ regionSegYs r)
  ∧ (∀ r : RegionKey, r ≠ RegionKey.sacral → indicatorLow r ∈ regionSegYs r)
  ∧ (indicatorLow RegionKey.sacral = coccyxPosY - 0.6
     ∧ ∀ y ∈ regionSegYs RegionKey.sacral, indicatorLow RegionKey.sacral < y) := by
  refine ⟨?_, ?_, ?_, ?_, ?_⟩
  · intro r
    cases r
    · intro y hy
      rw [regionSegYs_cervical] at hy
      rw [indicatorLow_cervical, indicatorHigh_cervical]
      simp only [List.mem_cons, List.not_mem_nil, or_false] at hy
      rcases hy with rfl | rfl | rfl | rfl | rfl | rfl | rfl <;>
        constructor <;>
        norm_num [cervicalY, cervicalEndY, cervicalStartY, vertebraSpacing]
    · intro y hy
      rw [regionSegYs_thoracic] at hy
      rw [indicatorLow_thoracic, indicatorHigh_thoracic]
      simp only [List.mem_cons, List.not_mem_nil, or_false] at hy
      rcases hy with rfl | rfl | rfl | rfl | rfl | rfl | rfl | rfl | rfl | rfl | rfl | rfl <;>
        constructor <;>
        norm_num [thoracicY, thoracicEndY, thoracicStartY, cervicalStartY, vertebraSpacing]
    · intro y hy
      rw [regionSegYs_lumbar] at hy
      rw [indicatorLow_lumbar, indicatorHigh_lumbar]
      simp only [List.mem_cons, List.not_mem_nil, or_false] at hy
      rcases hy with rfl | rfl | rfl | rfl | rfl <;>
        constructor <;>
        norm_num [lumbarY, lumbarEndY, lumbarStartY, thoracicStartY, cervicalStartY,
          vertebraSpacing]
    · intro y hy
      rw [regionSegYs_sacral] at hy
      rw [indicatorLow_sacral, indicatorHigh_sacral]
      simp only [List.mem_cons, List.not_mem_nil, or_false] at hy
      rcases hy with rfl | rfl <;>
        constructor <;>
        norm_num [sacralEndY, sacralStartY, coccyxPosY, lumbarStartY, thoracicStartY,
          cervicalStartY, vertebraSpacing]
  · intro r
    cases r
    · have h0 : cervicalStartY = cervicalY 0 := by
        norm_num [cervicalY, cervicalStartY, vertebraSpacing]
      rw [regionSegYs_cervical, indicatorHigh_cervical, h0]
      simp
    · have h0 : thoracicStartY = thoracicY 0 := by
        norm_num [thoracicY, thoracicStartY, cervicalStartY, vertebraSpacing]
      rw [regionSegYs_thoracic, indicatorHigh_thoracic, h0]
      simp
    · have h0 : lumbarStartY = lumbarY 0 := by
        norm_num [lumbarY, lumbarStartY, thoracicStartY, cervicalStartY, vertebraSpacing]
      rw [regionSegYs_lumbar, indicatorHigh_lumbar, h0]
      simp
    · rw [regionSegYs_sacral, indicatorHigh_sacral]
      simp
  · intro r hr
    cases r
    · have h6 : cervicalEndY = cervicalY 6 := by
        norm_num [cervicalY, cervicalEndY, cervicalStartY, vertebraSpacing]
      rw [regionSegYs_cervical, indicatorLow_cervical, h6]
      simp
    · have h11 : thoracicEndY = thoracicY 11 := by
        norm_num [thoracicY, thoracicEndY, thoracicStartY, cervicalStartY, vertebraSpacing]
      rw [regionSegYs_thoracic, indicatorLow_thoracic, h11]
      simp
    · have h4 : lumbarEndY = lumbarY 4 := by
        norm_num [lumbarY, lumbarEndY, lumbarStartY, thoracicStartY, cervicalStartY,
          vertebraSpacing]
      rw [regionSegYs_lumbar, indicatorLow_lumbar, h4]
      simp
    · exact absurd rfl hr
  · rw [indicatorLow_sacral]
    norm_num [sacralEndY, sacralStartY, coccyxPosY, lumbarStartY, thoracicStartY,
      cervicalStartY, vertebraSpacing]
  · intro y hy
    rw [regionSegYs_sacral] at hy
    rw [indicatorLow_sacral]
    simp only [List.mem_cons, List.not_mem_nil, or_false] at hy
    rcases hy with rfl | rfl
    · norm_num [sacralEndY, sacralStartY, lumbarStartY, thoracicStartY, cervicalStartY,
        vertebraSpacing]
    · norm_num [sacralEndY, sacralStartY, coccyxPosY, lumbarStartY, thoracicStartY,
        cervicalStartY, vertebraSpacing]

/-- Witness for C7 (amended): the containment applied to the first cervical
vertebra, with the membership hypothesis discharged concretely. -/
theorem indicator_span_amended_witness :
    indicatorLow RegionKey.cervical ≤ cervicalY 0 ∧ cervicalY 0 ≤ indicatorHigh RegionKey.cervical :=
  indicator_span_amended.1 RegionKey.cervical (cervicalY 0)
    (by rw [regionSegYs_cervical]; simp)

/-! ### C1, C2, C10: hover highlighting

In the assembled scene every mesh satisfies `GoodMesh` (its own `userData` has
no region tag unless it is an indicator, and no saved original color), so both
`highlightRegion` and `unhighlightRegion` leave all meshes and materials
unchanged, and `checkHover` only ever changes `hoveredRegion`. -/

theorem highlightMesh_id (rk : RegionKey) (m : SceneMesh) (mats : List Material)
    (h : m.ud.region = none ∨ m.ud.isIndicator = true) :
    highlightMesh rk m mats = (m, mats) := by
  rcases h with h | h <;> simp [highlightMesh, h]

theorem unhighlightMesh_id (m : SceneMesh) (mats : List Material)
    (h : m.ud.originalColor = none) :
    unhighlightMesh m mats = (m, mats) := by
  simp [unhighlightMesh, h]

theorem traverseMeshes_id (f : SceneMesh → List Material → SceneMesh × List Material)
    (ms : List SceneMesh) (h : ∀ m ∈ ms, ∀ mats, f m mats = (m, mats)) :
    ∀ mats, traverseMeshes f ms mats = (ms, mats) := by
  induction ms with
  | nil => intro mats; rfl
  | cons m rest ih =>
    intro mats
    have hm := h m (List.mem_cons_self m rest) mats
    have hr := ih (fun x hx => h x (List.mem_cons_of_mem m hx))
    simp [traverseMeshes, hm, hr mats]

set_option maxRecDepth 4000 in
theorem assembled_meshes_good : ∀ m ∈ assembledScene.2, GoodMesh m := by decide

theorem traverse_highlight_assembled (rk : RegionKey) (mats : List Material) :
    traverseMeshes (highlightMesh rk) assembledScene.2 mats = (assembledScene.2, mats) := by
  apply traverseMeshes_id
  intro m hmem mats'
  exact highlightMesh_id rk m mats' (assembled_meshes_good m hmem).1

theorem traverse_unhighlight_assembled (mats : List Material) :
    traverseMeshes unhighlightMesh assembledScene.2 mats = (assembledScene.2, mats) := by
  apply traverseMeshes_id
  intro m hmem mats'
  exact unhighlightMesh_id m mats' (assembled_meshes_good m hmem).2

theorem checkHover_preserves (e : Option RegionKey) (s : HoverState)
    (hm : s.meshes = assembledScene.2) (ha : s.mats = assembledScene.1) :
    (checkHover s e).meshes = assembledScene.2 ∧ (checkHover s e).mats = assembledScene.1 := by
  have h1 := traverse_highlight_assembled
  have h2 := traverse_unhighlight_assembled
  cases e with
  | some r =>
    by_cases hh : s.hoveredRegion = some r
    · simp [checkHover, hh, hm, ha]
    · simp [checkHover, hh, highlightRegion, h1, hm, ha]
  | none =>
    cases hcase : s.hoveredRegion with
    | some r => simp [checkHover, hcase, unhighlightRegion, h2, hm, ha]
    | none => simp [checkHover, hcase, hm, ha]

theorem runHover_scene (es : List (Option RegionKey)) :
    (runHover es).meshes = assembledScene.2 ∧ (runHover es).mats = assembledScene.1 := by
  have main : ∀ (es2 : List (Option RegionKey)) (s : HoverState),
      s.meshes = assembledScene.2 → s.mats = assembledScene.1 →
      (es2.foldl checkHover s).meshes = assembledScene.2
        ∧ (es2.foldl checkHover s).mats = assembledScene.1 := by
    intro es2
    induction es2 with
    | nil => intro s h1 h2; exact ⟨h1, h2⟩
    | cons e rest ih =>
      intro s h1 h2
      have h3 := checkHover_preserves e s h1 h2
      exact ih (checkHover s e) h3.1 h3.2
  exact main es hoverInit rfl rfl

theorem not_highlighted (r : RegionKey) (s : HoverState)
    (hm : s.meshes = assembledScene.2) : ¬ regionHighlighted r s := by
  rintro ⟨m, hmem, hreg, hind, _⟩
  rcases (assembled_meshes_good m (hm ▸ hmem)).1 with h | h
  · rw [h] at hreg
    exact Option.noConfusion hreg
  · rw [h] at hind
    exact Bool.noConfusion hind

/-- Claim C1: hover is mutually exclusive — at every state reachable by any
sequence of hover ray-cast outcomes, no two distinct regions simultaneously
have anatomy meshes carrying their highlight color, and after the hovered
region changes directly from one region to another the previous region's
meshes are not highlighted.  (This holds because `highlightRegion` filters on
`child.isMesh` while region tags live on groups, so no anatomy mesh is ever
recolored at all.) -/
theorem hover_mutually_exclusive (es : List (Option RegionKey)) (a b : RegionKey)
    (hab : a ≠ b) :
    ¬(regionHighlighted a (runHover es) ∧ regionHighlighted b (runHover es))
    ∧ ¬ regionHighlighted a (runHover (es ++ [some a, some b])) :=
  ⟨fun h => not_highlighted a _ (runHover_scene es).1 h.1,
   not_highlighted a _ (runHover_scene (es ++ [some a, some b])).1⟩

/-- Witness for C1 on the direct cervical-to-thoracic transition. -/
theorem hover_mutually_exclusive_witness :
    ¬(regionHighlighted RegionKey.cervical
        (runHover [some RegionKey.cervical, some RegionKey.thoracic])
      ∧ regionHighlighted RegionKey.thoracic
        (runHover [some RegionKey.cervical, some RegionKey.thoracic])) :=
  (hover_mutually_exclusive [some RegionKey.cervical, some RegionKey.thoracic]
    RegionKey.cervical RegionKey.thoracic (by decide)).1

/-- Claim C2: for every region, hovering it from the freshly assembled model
and then moving off all hit-test volumes leaves every mesh's material color,
emissive, intensity and opacity bit-exactly equal to its pre-hover value, and
every mesh with a saved original color (there are none: highlighting matches
no mesh, since region tags live on groups while the traversal filters on
`isMesh`) has emissive intensity `0`. -/
theorem hover_roundtrip_restores (rk : RegionKey) :
    (runHover [some rk, none]).mats = hoverInit.mats
    ∧ (runHover [some rk, none]).meshes = hoverInit.meshes
    ∧ ∀ m ∈ (runHover [some rk, none]).meshes, m.ud.originalColor ≠ none →
        (match (runHover [some rk, none]).mats.get? m.mat with
         | some mt => mt.emissiveIntensity = 0
         | none => True) := by
  have h := runHover_scene [some rk, none]
  refine ⟨h.2, h.1, ?_⟩
  intro m hm hoc
  exact absurd (assembled_meshes_good m (h.1 ▸ hm)).2 hoc

/-- Witness for C2 at the cervical region. -/
theorem hover_roundtrip_restores_witness :
    (runHover [some RegionKey.cervical, none]).mats = hoverInit.mats :=
  (hover_roundtrip_restores RegionKey.cervical).1

/-- Claim C10: hover highlighting never modifies intervertebral disc
materials — after any sequence of hover events, every disc mesh's color,
emissive and opacity equal their assembled values, and any mesh whose
material color changed (there are none) would have to be region-tagged and
not a disc mesh. -/
theorem disc_materials_untouched (es : List (Option RegionKey)) (m : SceneMesh)
    (hm : m ∈ (runHover es).meshes) (hk : m.src = MeshSrc.discMesh) :
    (match (runHover es).mats.get? m.mat, hoverInit.mats.get? m.mat with
     | some a, some b => a.color = b.color ∧ a.emissive = b.emissive ∧ a.opacity = b.opacity
     | _, _ => True)
    ∧ ∀ m2 ∈ (runHover es).meshes,
        (match (runHover es).mats.get? m2.mat, hoverInit.mats.get? m2.mat with
         | some a, some b => a.color ≠ b.color
         | _, _ => False) →
        m2.ud.region ≠ none ∧ m2.src ≠ MeshSrc.discMesh := by
  have h := runHover_scene es
  have hmats : (runHover es).mats = hoverInit.mats := h.2
  constructor
  · rw [hmats]
    cases hoverInit.mats.get? m.mat with
    | none => trivial
    | some mt => exact ⟨rfl, rfl, rfl⟩
  · intro m2 hm2 hne
    rw [hmats] at hne
    exfalso
    cases hget : hoverInit.mats.get? m2.mat with
    | none => rw [hget] at hne; exact hne
    | some mt => rw [hget] at hne; exact hne rfl

set_option maxRecDepth 8000 in
/-- Witness for C10 at the first disc mesh (material index 2) after a lumbar
hover round trip. -/
theorem disc_materials_untouched_witness :
    (match (runHover [some RegionKey.lumbar, none]).mats.get? 2,
           hoverInit.mats.get? 2 with
     | some a, some b => a.color = b.color ∧ a.emissive = b.emissive ∧ a.opacity = b.opacity
     | _, _ => True) :=
  (disc_materials_untouched [some RegionKey.lumbar, none]
    ⟨MeshSrc.discMesh, {}, 2⟩
    (by rw [(runHover_scene [some RegionKey.lumbar, none]).1]; decide) rfl).1

/-! ### C3: auto-rotate re-enable timing

Lemmas about `fireDue` (the batch of timer callbacks due at an instant) and
the invariant `RotInv`, followed by the amended claim, the counterexample and
the witness. -/

theorem foldl_fireTimer_isDragging (l : List ℕ) (s : RotState) :
    (l.foldl (fun st _ => fireTimer st) s).isDragging = s.isDragging := by
  induction l generalizing s with
  | nil => rfl
  | cons p rest ih =>
    rw [List.foldl_cons, ih]
    unfold fireTimer
    split <;> rfl

theorem foldl_fireTimer_pending (l : List ℕ) (s : RotState) :
    (l.foldl (fun st _ => fireTimer st) s).pending = s.pending := by
  induction l generalizing s with
  | nil => rfl
  | cons p rest ih =>
    rw [List.foldl_cons, ih]
    unfold fireTimer
    split <;> rfl

theorem foldl_fireTimer_auto_true (l : List ℕ) (s : RotState)
    (h : s.autoRotate = true) :
    (l.foldl (fun st _ => fireTimer st) s).autoRotate = true := by
  induction l generalizing s with
  | nil => exact h
  | cons p rest ih =>
    rw [List.foldl_cons]
    apply ih
    unfold fireTimer
    split
    · exact h
    · rfl

theorem foldl_fireTimer_auto_of_ne (l : List ℕ) (s : RotState)
    (hl : l ≠ []) (hd : s.isDragging = false) :
    (l.foldl (fun st _ => fireTimer st) s).autoRotate = true := by
  cases l with
  | nil => exact absurd rfl hl
  | cons p rest =>
    rw [List.foldl_cons]
    apply foldl_fireTimer_auto_true
    unfold fireTimer
    rw [hd]
    rfl

theorem foldl_fireTimer_auto_rev (l : List ℕ) (s : RotState)
    (h : (l.foldl (fun st _ => fireTimer st) s).autoRotate = true) :
    s.autoRotate = true ∨ (s.isDragging = false ∧ l ≠ []) := by
  induction l generalizing s with
  | nil => exact Or.inl h
  | cons p rest ih =>
    rw [List.foldl_cons] at h
    by_cases hd : s.isDragging
    · have hfix : fireTimer s = s := by simp [fireTimer, hd]
      rw [hfix] at h
      rcases ih s h with h1 | ⟨h2, _⟩
      · exact Or.inl h1
      · rw [hd] at h2
        exact Bool.noConfusion h2
    · exact Or.inr ⟨by simpa using hd, by simp⟩

theorem fireDue_isDragging (s : RotState) (t : ℕ) :
    (fireDue s t).isDragging = s.isDragging := by
  unfold fireDue
  rw [foldl_fireTimer_isDragging]

theorem fireDue_pending (s : RotState) (t : ℕ) :
    (fireDue s t).pending = s.pending.filter fun p => !(decide (p ≤ t)) := by
  unfold fireDue
  rw [foldl_fireTimer_pending]

theorem fireDue_auto_of_mem (s : RotState) (t p : ℕ)
    (hp : p ∈ s.pending) (hpt : p ≤ t) (hd : s.isDragging = false) :
    (fireDue s t).autoRotate = true := by
  unfold fireDue
  apply foldl_fireTimer_auto_of_ne
  · exact List.ne_nil_of_mem (List.mem_filter.mpr ⟨hp, by simpa using hpt⟩)
  · exact hd

theorem fireDue_auto_rev (s : RotState) (t : ℕ)
    (h : (fireDue s t).autoRotate = true) :
    s.autoRotate = true ∨ (s.isDragging = false ∧ ∃ p ∈ s.pending, p ≤ t) := by
  unfold fireDue at h
  rcases foldl_fireTimer_auto_rev _ _ h with h1 | ⟨h2, h3⟩
  · exact Or.inl h1
  · refine Or.inr ⟨h2, ?_⟩
    obtain ⟨p, hp⟩ := List.exists_mem_of_ne_nil _ h3
    have := List.mem_filter.mp hp
    exact ⟨p, this.1, by simpa using this.2⟩

theorem rotInv_init (T : ℕ) : RotInv T [] rotInit := by
  constructor
  · intro _
    exact ⟨rfl, Or.inl (by simp)⟩
  · intro p hp
    simp [rotInit] at hp

theorem rotInv_fireDue (T : ℕ) (seen : List (ℕ × PEv)) (s : RotState) (t : ℕ)
    (ht : t ≤ T) (h : RotInv T seen s) : RotInv T seen (fireDue s t) := by
  constructor
  · intro hauto
    rw [fireDue_isDragging]
    rcases fireDue_auto_rev s t hauto with h1 | ⟨h2, p, hp, hpt⟩
    · exact ⟨(h.1 h1).1, (h.1 h1).2⟩
    · refine ⟨h2, Or.inr ?_⟩
      obtain ⟨e, he, heup, hpe⟩ := h.2 p hp
      exact ⟨e, he, heup, by omega⟩
  · intro p hp
    rw [fireDue_pending] at hp
    exact h.2 p (List.mem_of_mem_filter hp)

theorem rotInv_step (T : ℕ) (seen : List (ℕ × PEv)) (s : RotState) (e : ℕ × PEv)
    (he : e.1 ≤ T) (h : RotInv T seen s) : RotInv T (seen ++ [e]) (rotStep s e) := by
  have hfd := rotInv_fireDue T seen s e.1 he h
  rcases e with ⟨t, ev⟩
  cases ev with
  | down =>
    constructor
    · intro hauto
      simp [rotStep] at hauto
    · intro p hp
      simp only [rotStep] at hp
      obtain ⟨e2, he2, h1, h2⟩ := hfd.2 p hp
      exact ⟨e2, List.mem_append_left _ he2, h1, h2⟩
  | up =>
    constructor
    · intro hauto
      have hauto2 : (fireDue s t).autoRotate = true := by simpa [rotStep] using hauto
      refine ⟨by simp [rotStep], ?_⟩
      rcases (hfd.1 hauto2).2 with h1 | ⟨e2, he2, h2, h3⟩
      · left
        intro e3 he3
        rcases List.mem_append.mp he3 with h4 | h4
        · exact h1 e3 h4
        · simp only [List.mem_singleton] at h4
          subst h4
          simp
      · exact Or.inr ⟨e2, List.mem_append_left _ he2, h2, h3⟩
    · intro p hp
      have hp2 : p ∈ (fireDue s t).pending ++ [t + 3000] := by simpa [rotStep] using hp
      rcases List.mem_append.mp hp2 with h1 | h1
      · obtain ⟨e2, he2, h2, h3⟩ := hfd.2 p h1
        exact ⟨e2, List.mem_append_left _ he2, h2, h3⟩
      · simp only [List.mem_singleton] at h1
        subst h1
        exact ⟨(t, PEv.up), List.mem_append_right _ (by simp), rfl, rfl⟩

theorem rotInv_run (T : ℕ) (es : List (ℕ × PEv)) (hT : ∀ e ∈ es, e.1 ≤ T) :
    RotInv T es (es.foldl rotStep rotInit) := by
  have main : ∀ (es2 seen : List (ℕ × PEv)) (s : RotState),
      (∀ e ∈ es2, e.1 ≤ T) → RotInv T seen s →
      RotInv T (seen ++ es2) (es2.foldl rotStep s) := by
    intro es2
    induction es2 with
    | nil =>
      intro seen s _ h
      simpa using h
    | cons e rest ih =>
      intro seen s hT2 h
      have h1 := rotInv_step T seen s e (hT2 e (by simp)) h
      have h2 := ih (seen ++ [e]) (rotStep s e)
        (fun e2 he2 => hT2 e2 (by simp [he2])) h1
      simpa using h2
  simpa using main es [] rotInit hT (rotInv_init T)

/-- Claim C3 (amended): auto-rotation is enabled **if** no drag follows the
last drag end and at least 3000 ms have elapsed since it ended; conversely,
whenever auto-rotation is enabled, no drag is in progress and at least 3000 ms
have elapsed since **some** (not necessarily the most recent) drag ended —
because a pending 3000 ms timer from an earlier drag is never cancelled, only
guarded by the drag flag at expiry, it can re-enable auto-rotation fewer than
3000 ms after a later drag ended. -/
theorem autorotate_amended (es : List (ℕ × PEv)) (T : ℕ)
    (hT : ∀ e ∈ es, e.1 ≤ T) :
    ((runRot es T).autoRotate = true →
       (runRot es T).isDragging = false ∧
       ((∀ e ∈ es, e.2 ≠ PEv.down) ∨ ∃ e ∈ es, e.2 = PEv.up ∧ e.1 + 3000 ≤ T))
    ∧ (∀ (es2 : List (ℕ × PEv)) (u : ℕ), es = es2 ++ [(u, PEv.up)] → u + 3000 ≤ T →
        (runRot es T).autoRotate = true ∧ (runRot es T).isDragging = false) := by
  constructor
  · intro hauto
    have hinv := rotInv_fireDue T es (es.foldl rotStep rotInit) T (le_refl T)
      (rotInv_run T es hT)
    exact hinv.1 hauto
  · rintro es2 u rfl hu
    have hstep : runRot (es2 ++ [(u, PEv.up)]) T
        = fireDue (rotStep (es2.foldl rotStep rotInit) (u, PEv.up)) T := by
      rw [runRot, List.foldl_append]
      rfl
    rw [hstep]
    have hdrag : (rotStep (es2.foldl rotStep rotInit) (u, PEv.up)).isDragging = false := by
      simp [rotStep]
    have hpend : u + 3000 ∈ (rotStep (es2.foldl rotStep rotInit) (u, PEv.up)).pending := by
      simp [rotStep]
    exact ⟨fireDue_auto_of_mem _ T _ hpend hu hdrag, by rw [fireDue_isDragging]; exact hdrag⟩

/-- Counterexample for C3: drag 0–100 ms, drag again 200–500 ms; at 3100 ms
the stale timer from the first drag (scheduled for 100 + 3000) fires while no
drag is in progress and re-enables auto-rotation, although only 2600 ms
(< 3000) have elapsed since the most recent drag ended at 500 ms. -/
theorem autorotate_early_reenable_cex :
    (runRot [(0, PEv.down), (100, PEv.up), (200, PEv.down), (500, PEv.up)] 3100).autoRotate = true
    ∧ (runRot [(0, PEv.down), (100, PEv.up), (200, PEv.down), (500, PEv.up)] 3100).isDragging = false
    ∧ 3100 < 500 + 3000 := by
  refine ⟨by decide, by decide, by decide⟩

/-- Witness for C3 (amended): a single drag end at 0 ms re-enables
auto-rotation by 3000 ms. -/
theorem autorotate_amended_witness :
    (runRot [(0, PEv.up)] 3000).autoRotate = true :=
  ((autorotate_amended [(0, PEv.up)] 3000 (by decide)).2 [] 0 rfl (by decide)).1
